import Mathlib

/-!
Verification of the DBIntsert repository (src/DBI.py) against its
natural-language specification.

The module is a Python 2 program (its type-dispatch compares against
CPython 2 type reprs such as the string "<type 'numpy.datetime64'>"); the
shallow embedding below follows the source line by line, with the Python
runtime facts it relies on (numpy dtype class hierarchy, CPython 2 type
reprs, pandas raising its DatabaseError -- an IOError subclass -- from a
failed read_sql_query, DataFrame truthiness raising ValueError) modelled
explicitly. The single destination table of a DBInsert instance is
modelled as an optional table state; each DDL statement and the COPY are
the autocommitted single statements the source issues.
-/

namespace DBI

/-- The module-level dict `types` of DBI.py (DBI.py lines 12-18), as a
function from its keys; keys outside the dict never occur in the source. -/
def types : String → String
  | "DATE" => "DATE"
  | "DATETIME" => "TIMESTAMP WITHOUT TIME ZONE"
  | "INT" => "BIGINT"
  | "FLOAT" => "NUMERIC"
  | "VARCHAR" => "TEXT"
  | _ => ""

/-- The numpy element dtypes a pandas column can carry in this program:
datetime64, signed integers, bool, floats, and the opaque object dtype
(strings, datetime.date / datetime.datetime objects live there). -/
inductive NpDtype
  | datetime64
  | integer
  | bool_
  | floating
  | object_
deriving DecidableEq

/-- CPython 2 repr of `dt.type` for each dtype, as compared on DBI.py
lines 143 and 193. -/
def dtypeTypeStr : NpDtype → String
  | .datetime64 => "<type 'numpy.datetime64'>"
  | .integer => "<type 'numpy.int64'>"
  | .bool_ => "<type 'numpy.bool_'>"
  | .floating => "<type 'numpy.float64'>"
  | .object_ => "<type 'numpy.object_'>"

/-- numpy class-hierarchy fact: issubclass(dt.type, np.datetime64)
(DBI.py line 145). -/
def issubclassDatetime64 : NpDtype → Bool
  | .datetime64 => true
  | _ => false

/-- numpy class-hierarchy fact: issubclass(dt.type, (np.integer, np.bool_))
(DBI.py line 147). -/
def issubclassIntegerBool : NpDtype → Bool
  | .integer => true
  | .bool_ => true
  | _ => false

/-- numpy class-hierarchy fact: issubclass(dt.type, np.floating)
(DBI.py line 149). -/
def issubclassFloating : NpDtype → Bool
  | .floating => true
  | _ => false

/-- A Python value stored in a column: a datetime.datetime, a
datetime.date, a str, or an int (each carrying its text rendering or
payload). -/
inductive PyVal
  | pyDatetime (render : String)
  | pyDate (render : String)
  | pyStr (s : String)
  | pyInt (n : Int)
deriving DecidableEq

/-- CPython 2 repr of `type(v)`, as compared on DBI.py lines 153 and 155. -/
def typeStr : PyVal → String
  | .pyDatetime _ => "<type 'datetime.datetime'>"
  | .pyDate _ => "<type 'datetime.date'>"
  | .pyStr _ => "<type 'str'>"
  | .pyInt _ => "<type 'int'>"

/-- The text a value contributes to the tab-separated stream df.to_csv
writes (DBI.py line 196). -/
def render : PyVal → String
  | .pyDatetime s => s
  | .pyDate s => s
  | .pyStr s => s
  | .pyInt n => toString n

/-- One column of a pandas DataFrame: name, element dtype, values in row
order. -/
structure Column where
  name : String
  dtype : NpDtype
  values : List PyVal
deriving DecidableEq

/-- A pandas DataFrame: its columns in order. -/
structure DataFrame where
  cols : List Column
deriving DecidableEq

/-- Row count of the frame (length of any column; 0 for no columns). -/
def DataFrame.nrows (df : DataFrame) : Nat :=
  match df.cols with
  | [] => 0
  | c :: _ => c.values.length

/-- Well-formedness: every column holds one value per row. -/
def DataFrame.wf (df : DataFrame) : Prop :=
  ∀ c ∈ df.cols, c.values.length = df.nrows

/-- The Python exceptions the embedded code can raise. -/
inductive PyErr
  | valueError (msg : String)
  | keyError
  | nameError (var : String)
  | unboundLocalError (var : String)
  | pgError (msg : String)
  | ioError (msg : String)
deriving DecidableEq

deriving instance DecidableEq for Except

/-- Membership in the IOError hierarchy (pandas DatabaseError subclasses
IOError; psycopg2 and builtin ValueError / KeyError / NameError do not). -/
def isIOError : PyErr → Bool
  | .ioError _ => true
  | _ => false

/-- Membership in the psycopg2 error hierarchy (pg.Error, DBI.py line 275). -/
def isPgError : PyErr → Bool
  | .pgError _ => true
  | _ => false

/-- Python str.format of an argument that may be None: format(None) is the
string "None". -/
def pyFormatArg : Option String → String
  | none => "None"
  | some s => s

/-- DBI.py line 130: self.tb_name built by string interpolation from the
schema and table arguments (the table name double-quoted). -/
def mkTbName (schema table : Option String) : String :=
  pyFormatArg schema ++ "." ++ "\"" ++ pyFormatArg table ++ "\""

/-- The per-column body of DBInsert._get_schema (DBI.py lines 141-158):
dispatch on the dtype repr string and the numpy subclass tests; in the
else branch sample df[col][0] (KeyError on an empty column) and dispatch
on the sample value type repr. -/
def inferSqlType (c : Column) : Except PyErr String :=
  if dtypeTypeStr c.dtype = "<type 'numpy.datetime64'>" then
    .ok (types "DATETIME")
  else if issubclassDatetime64 c.dtype then
    .ok (types "DATETIME")
  else if issubclassIntegerBool c.dtype then
    .ok (types "INT")
  else if issubclassFloating c.dtype then
    .ok (types "FLOAT")
  else
    match c.values.head? with
    | none => .error .keyError
    | some sampl =>
      if typeStr sampl = "<type 'datetime.datetime'>" then
        .ok (types "DATETIME")
      else if typeStr sampl = "<type 'datetime.date'>" then
        .ok (types "DATE")
      else
        .ok (types "VARCHAR")

/-- The column_types list the loop of _get_schema accumulates, or the
first exception it raises. -/
def columnTypes : List Column → Except PyErr (List (String × String))
  | [] => .ok []
  | c :: rest =>
    match inferSqlType c with
    | .error e => .error e
    | .ok t =>
      match columnTypes rest with
      | .error e => .error e
      | .ok l => .ok ((c.name, t) :: l)

/-- DBI.py line 162: the joined column clause of the CREATE statement. -/
def columnsClause (l : List (String × String)) : String :=
  String.intercalate ",\n  " (l.map fun p => "\"" ++ p.1 ++ "\" " ++ p.2)

/-- DBI.py lines 163-168: template_create with name and columns formatted
in (whitespace as in the triple-quoted source literal). -/
def templateCreate (name columns : String) : String :=
  "\n            CREATE TABLE " ++ name ++ " (\n                " ++
    columns ++ "\n            );\n        "

/-- DBInsert._get_schema (DBI.py lines 137-170): the CREATE TABLE script,
or the exception the sampling raises. -/
def getSchema (tbName : String) (df : DataFrame) : Except PyErr String :=
  match columnTypes df.cols with
  | .error e => .error e
  | .ok l => .ok (templateCreate tbName (columnsClause l))

/-- The destination table as the database stores it: the CREATE script
that provisioned it and the loaded rows (each row a serialized line of
the COPY stream). -/
structure TableState where
  schema : String
  rows : List String
deriving DecidableEq

/-- The database state visible through the instance: its one destination
table, present or absent. -/
structure Db where
  table : Option TableState
deriving DecidableEq

/-- The rows the destination currently holds ([] when the table is absent). -/
def dbRows (db : Db) : List String :=
  match db.table with
  | none => []
  | some t => t.rows

/-- DBI.py line 176: pd.read_sql_query of SELECT * FROM tb_name LIMIT 1.
On an absent relation the query fails and pandas raises its DatabaseError,
a subclass of IOError; on a present relation it returns at most one row. -/
def readSqlQueryLimit1 (db : Db) : Except PyErr (List String) :=
  match db.table with
  | none => .error (.ioError "DatabaseError: Execution failed on sql")
  | some t => .ok (t.rows.take 1)

/-- DBInsert._table_exist (DBI.py lines 172-181): probe, catch IOError as
False, else report len(df) > 0. Exceptions outside the IOError hierarchy
would propagate (none arise from the probe as modelled). -/
def tableExistE (db : Db) : Except PyErr Bool :=
  match readSqlQueryLimit1 db with
  | .error e => if isIOError e then .ok false else .error e
  | .ok rows => .ok (decide (rows.length > 0))

/-- The Boolean the probe returns; the error arm of tableExistE is
unreachable (tableExistE_eq below), so this loses nothing. -/
def tableExist (db : Db) : Bool :=
  match tableExistE db with
  | .ok b => b
  | .error _ => false

/-- DBI.py line 232: DROP TABLE tb_name as one autocommitted statement;
PostgreSQL rejects it when the relation is absent. -/
def dropTable (db : Db) : Except PyErr Db :=
  match db.table with
  | none => .error (.pgError "DROP TABLE: relation does not exist")
  | some _ => .ok { table := none }

/-- DBI.py line 238: executing the CREATE script as one autocommitted
statement; PostgreSQL rejects it when the relation already exists. -/
def createTable (script : String) (db : Db) : Except PyErr Db :=
  match db.table with
  | some _ => .error (.pgError "CREATE TABLE: relation already exists")
  | none => .ok { table := some { schema := script, rows := [] } }

/-- Row i of the frame as df.to_csv serializes it (values across the
columns in order). -/
def DataFrame.row (df : DataFrame) (i : Nat) : List String :=
  df.cols.map fun c => render (c.values.getD i (.pyStr ""))

/-- DBI.py line 196: the tab-separated lines of df.to_csv with no header
and no index. -/
def tsvLines (df : DataFrame) : List String :=
  (List.range df.nrows).map fun i => String.intercalate "\t" (df.row i)

/-- The condition of the datetime64 fix-up loop in _pg_copy_from
(DBI.py line 193). -/
def hasDatetime64Col (df : DataFrame) : Bool :=
  df.cols.any fun c => decide (dtypeTypeStr c.dtype = "<type 'numpy.datetime64'>")

/-- DBInsert._pg_copy_from (DBI.py lines 183-205). The fix-up loop body
`df[k] = [ v.to_pydatetime() for v in df[k] ]` reads the undefined name
k, so reaching it for any datetime64 column raises NameError before the
frame is serialized; otherwise the frame is serialized to tab-separated
lines and appended to the destination through cur.copy_from, which fails
when the relation is absent. -/
def pgCopyFrom (df : DataFrame) (db : Db) : Except PyErr Db :=
  if hasDatetime64Col df then
    .error (.nameError "k")
  else
    match db.table with
    | none => .error (.pgError "COPY: relation does not exist")
    | some t => .ok { table := some { t with rows := t.rows ++ tsvLines df } }

/-- DBInsert.to_sql (DBI.py lines 207-244): drop under replace when the
probe sees the table, create under replace or when fail/append miss it,
then either raise the conflict ValueError (fail with the probe seeing the
table) or bulk-load. Each step autocommits, so the state reached before a
failing step is kept: the result pairs the raised exception (none on
success) with the final database state. -/
def to_sql (tb : String) (df : DataFrame) (ifExists : String) (db : Db) :
    Option PyErr × Db :=
  -- drop table
  match (if ifExists = "replace" ∧ tableExist db then dropTable db else .ok db :
      Except PyErr Db) with
  | .error e => (some e, db)
  | .ok db1 =>
    -- create table
    match (if ifExists = "replace" ∨
        ((ifExists = "fail" ∨ ifExists = "append") ∧ ¬ tableExist db1) then
        match getSchema tb df with
        | .error e => .error e
        | .ok script => createTable script db1
      else .ok db1 : Except PyErr Db) with
    | .error e => (some e, db1)
    | .ok db2 =>
      -- insert table
      if ifExists = "fail" ∧ tableExist db2 then
        (some (.valueError ("Table '" ++ tb ++ "' already exists.")), db2)
      else
        match pgCopyFrom df db2 with
        | .error e => (some e, db2)
        | .ok db3 => (none, db3)

/-- DBI.py line 265: the SELECT the read path interpolates. -/
def selectAllSql (tbName : String) : String :=
  "SELECT * FROM " ++ tbName

/-- DBI.py lines 264-269: which SQL text read_sql executes -- the
interpolated SELECT whenever tb_name differs from the literal
interpolation of two Nones, else the query argument, else ValueError. -/
def readSqlChoice (tbName : String) (query : Option String) :
    Except PyErr String :=
  if tbName ≠ "None.\"None\"" then .ok (selectAllSql tbName)
  else
    match query with
    | some q => .ok q
    | none => .error (.valueError "There is no query to execute.")

/-- What a successful cursor execution yields: column names and fetched
rows (DBI.py lines 278-279). -/
structure QueryResult where
  names : List String
  rows : List (List String)
deriving DecidableEq

/-- DBInsert.read_sql (DBI.py lines 246-281), over an abstract backend
executor. A pg.Error from cur.execute is caught and printed, after which
the return statement reads the never-assigned locals rows and names and
raises UnboundLocalError; other exceptions propagate. -/
def read_sql (tbName : String) (query : Option String)
    (exec : String → Except PyErr QueryResult) : Except PyErr QueryResult :=
  match readSqlChoice tbName query with
  | .error e => .error e
  | .ok sql =>
    match exec sql with
    | .ok res => .ok res
    | .error e =>
      if isPgError e then .error (.unboundLocalError "rows")
      else .error e

/-- DBI.sql2df (DBI.py lines 20-55): the two parameter checks as written
(line 47 and line 49), then DBInsert(schema, table, con).read_sql(query). -/
def sql2df (query schema table : Option String)
    (exec : String → Except PyErr QueryResult) : Except PyErr QueryResult :=
  if query.isNone ∨ (query.isNone ∨ table.isNone) then
    .error (.valueError "You must give the values of 'query', or 'schema' and 'table'.")
  else if query.isSome ∨ (query.isSome ∧ table.isSome) then
    .error (.valueError "You must choose one way to query PostgreSQL, SQL script or table name.")
  else
    read_sql (mkTbName schema table) query exec

/-- The data argument of df2sql: None, a pandas DataFrame, or an object of
some other type. -/
inductive PyData
  | noneVal
  | dataFrame (df : DataFrame)
  | other (typeName : String)
deriving DecidableEq

/-- Truth value of the Python expression `data == None` (DBI.py line 94):
True for None, False for an ordinary object, but for a DataFrame the
elementwise comparison yields a frame whose __bool__ raises ValueError. -/
def dataEqNoneTruth : PyData → Except PyErr Bool
  | .noneVal => .ok true
  | .dataFrame _ => .error (.valueError
      "The truth value of a DataFrame is ambiguous. Use a.empty, a.bool(), a.item(), a.any() or a.all().")
  | .other _ => .ok false

/-- isinstance(data, pd.DataFrame) (DBI.py line 94). -/
def isDataFrameInstance : PyData → Bool
  | .dataFrame _ => true
  | _ => false

/-- DBI.df2sql (DBI.py lines 58-99): the three validation checks in
source order, then DBInsert(schema, table, con).to_sql(df, if_exists).
hasCon models whether the con argument was supplied (con == None on a
real connection is False). -/
def df2sql (data : PyData) (schema table : Option String) (hasCon : Bool)
    (ifExists : String) (db : Db) : Option PyErr × Db :=
  if schema.isNone ∨ table.isNone then
    (some (.valueError "There are no values in 'schema' and 'table'."), db)
  else if ¬ hasCon then
    (some (.valueError "There is no connection to connect with PostgreSQL."), db)
  else
    match dataEqNoneTruth data with
    | .error e => (some e, db)
    | .ok b =>
      if b ∨ ¬ isDataFrameInstance data then
        (some (.valueError "There is no data to insert into the table in PostgreSQL."), db)
      else
        match data with
        | .dataFrame df => to_sql (mkTbName schema table) df ifExists db
        | _ => (some (.valueError "There is no data to insert into the table in PostgreSQL."), db)

/-! Concrete inputs used by the witnesses and counterexamples below. -/

/-- The qualified name of the docstring example: schema dad, table test. -/
def tbEx : String := mkTbName (some "dad") (some "test")

/-- A database in which the destination table does not exist. -/
def db0 : Db := ⟨none⟩

/-- A frame with one BIGINT-typed column and zero rows. -/
def dfEmpty : DataFrame := ⟨[⟨"id", .integer, []⟩]⟩

/-- A frame with one BIGINT-typed column and one row. -/
def dfOne : DataFrame := ⟨[⟨"id", .integer, [.pyInt 1]⟩]⟩

/-- A frame with one BIGINT-typed column and two rows. -/
def dfTwo : DataFrame := ⟨[⟨"id", .integer, [.pyInt 1, .pyInt 2]⟩]⟩

/-- A frame with one datetime64-typed column and one row. -/
def dfDatetime : DataFrame :=
  ⟨[⟨"created", .datetime64, [.pyDatetime "2017-12-20 00:00:00"]⟩]⟩

/-- A frame with one object-typed column and zero rows. -/
def dfObjEmpty : DataFrame := ⟨[⟨"name", .object_, []⟩]⟩

/-- The database state a replace-write of the empty frame leaves behind. -/
def db1Ex : Db := (to_sql tbEx dfEmpty "replace" db0).2

/-- A database whose destination table exists and holds no row. -/
def dbEmptyEx : Db := ⟨some ⟨"sch", []⟩⟩

/-- A database whose destination table exists and holds one row. -/
def dbRowEx : Db := ⟨some ⟨"sch", ["r"]⟩⟩

/-- The database state a replace-write of dfOne to db0 leaves behind. -/
def dbW1 : Db := (to_sql tbEx dfOne "replace" db0).2

/-- The database state a replace-write of dfTwo to dbW1 leaves behind. -/
def dbW2 : Db := (to_sql tbEx dfTwo "replace" dbW1).2

/-- A backend executor whose every query fails with a psycopg2 error. -/
def execFailEx : String → Except PyErr QueryResult :=
  fun _ => .error (.pgError "relation does not exist")

/-! Evaluation lemmas for type inference, one per branch of _get_schema. -/

lemma inferSqlType_datetime64_eq (nm : String) (vals : List PyVal) :
    inferSqlType ⟨nm, .datetime64, vals⟩ = .ok "TIMESTAMP WITHOUT TIME ZONE" := rfl

lemma inferSqlType_integer_eq (nm : String) (vals : List PyVal) :
    inferSqlType ⟨nm, .integer, vals⟩ = .ok "BIGINT" := rfl

lemma inferSqlType_bool_eq (nm : String) (vals : List PyVal) :
    inferSqlType ⟨nm, .bool_, vals⟩ = .ok "BIGINT" := rfl

lemma inferSqlType_floating_eq (nm : String) (vals : List PyVal) :
    inferSqlType ⟨nm, .floating, vals⟩ = .ok "NUMERIC" := rfl

lemma inferSqlType_object_nil_eq (nm : String) :
    inferSqlType ⟨nm, .object_, []⟩ = .error .keyError := rfl

lemma inferSqlType_object_datetime_eq (nm r : String) (vs : List PyVal) :
    inferSqlType ⟨nm, .object_, .pyDatetime r :: vs⟩ =
      .ok "TIMESTAMP WITHOUT TIME ZONE" := rfl

lemma inferSqlType_object_date_eq (nm r : String) (vs : List PyVal) :
    inferSqlType ⟨nm, .object_, .pyDate r :: vs⟩ = .ok "DATE" := rfl

lemma inferSqlType_object_str_eq (nm r : String) (vs : List PyVal) :
    inferSqlType ⟨nm, .object_, .pyStr r :: vs⟩ = .ok "TEXT" := rfl

lemma inferSqlType_object_int_eq (nm : String) (n : Int) (vs : List PyVal) :
    inferSqlType ⟨nm, .object_, .pyInt n :: vs⟩ = .ok "TEXT" := rfl

/-- The except-IOError arm of _table_exist is unreachable: the probe as
modelled yields exactly the Boolean tableExist computes. -/
lemma tableExistE_eq (db : Db) : tableExistE db = .ok (tableExist db) := by
  obtain ⟨table⟩ := db
  cases table <;> rfl

/-- The probe on a present table reports existence exactly when the table
holds a row. -/
lemma tableExist_some (s : String) (rows : List String) :
    tableExist ⟨some ⟨s, rows⟩⟩ = decide (rows ≠ []) := by
  cases rows <;> rfl

/-- A replace-write that raises nothing leaves the destination holding
exactly the serialized rows of the written frame. -/
lemma to_sql_replace_ok (tb : String) (df : DataFrame) (db db2 : Db)
    (h : to_sql tb df "replace" db = (none, db2)) :
    ∃ s, db2.table = some { schema := s, rows := tsvLines df } := by
  unfold to_sql at h
  split at h
  · simp at h
  next db1 heq1 =>
    split at h
    · simp at h
    next dbc heq2 =>
      rw [if_pos (Or.inl rfl)] at heq2
      split at heq2
      · simp at heq2
      next script hgs =>
        unfold createTable at heq2
        split at heq2
        · simp at heq2
        next hnone =>
          rw [Except.ok.injEq] at heq2
          split at h
          · simp at h
          · split at h
            · simp at h
            next db3 hcopy =>
              rw [Prod.mk.injEq] at h
              obtain ⟨-, rfl⟩ := h
              unfold pgCopyFrom at hcopy
              split at hcopy
              · simp at hcopy
              · split at hcopy
                · simp at hcopy
                next t ht =>
                  rw [Except.ok.injEq] at hcopy
                  subst hcopy
                  rw [← heq2] at ht
                  simp only [Option.some.injEq] at ht
                  subst ht
                  exact ⟨script, by simp⟩

/-- Type inference never raises on a column whose dtype is not the object
dtype. -/
lemma inferSqlType_nonobject_ok (c : Column) (h : c.dtype ≠ .object_) :
    ∃ t, inferSqlType c = .ok t := by
  obtain ⟨nm, dt, vals⟩ := c
  cases dt with
  | datetime64 => exact ⟨_, inferSqlType_datetime64_eq nm vals⟩
  | integer => exact ⟨_, inferSqlType_integer_eq nm vals⟩
  | bool_ => exact ⟨_, inferSqlType_bool_eq nm vals⟩
  | floating => exact ⟨_, inferSqlType_floating_eq nm vals⟩
  | object_ => exact absurd rfl h

/-- The _get_schema loop over all-empty columns raises the sampling
KeyError as soon as it reaches an object-typed column. -/
lemma columnTypes_keyError (cs : List Column) (hemp : ∀ c ∈ cs, c.values = [])
    (hobj : ∃ c ∈ cs, c.dtype = .object_) :
    columnTypes cs = .error .keyError := by
  induction cs with
  | nil => simp at hobj
  | cons c rest ih =>
    by_cases hd : c.dtype = .object_
    · have hc : inferSqlType c = .error .keyError := by
        obtain ⟨nm, dt, vals⟩ := c
        have hcv : vals = [] :=
          hemp { name := nm, dtype := dt, values := vals } (List.mem_cons_self _ _)
        simp only at hd
        subst hcv; subst hd
        exact inferSqlType_object_nil_eq nm
      simp [columnTypes, hc]
    · obtain ⟨t, ht⟩ := inferSqlType_nonobject_ok c hd
      have hrest : columnTypes rest = .error .keyError := by
        apply ih
        · intro c2 hc2; exact hemp c2 (List.mem_cons_of_mem _ hc2)
        · rcases hobj with ⟨c2, hc2, hobj2⟩
          rcases List.mem_cons.mp hc2 with rfl | hmem
          · exact absurd hobj2 hd
          · exact ⟨c2, hmem, hobj2⟩
      simp [columnTypes, ht, hrest]

/-- C1: for every column whose first value exists, type inference assigns
exactly one SQL type from DATE, TIMESTAMP WITHOUT TIME ZONE, BIGINT,
NUMERIC and TEXT, following the precedence of _get_schema: a datetime64
dtype gives TIMESTAMP WITHOUT TIME ZONE, an integer or boolean dtype
gives BIGINT, a floating dtype gives NUMERIC, and otherwise the first
value is sampled -- a datetime.datetime gives TIMESTAMP WITHOUT TIME
ZONE, a datetime.date gives DATE, and anything else gives TEXT. -/
theorem C1_type_inference_precedence (c : Column) (h : c.values ≠ []) :
    ∃ t, inferSqlType c = .ok t ∧
      (t = "DATE" ∨ t = "TIMESTAMP WITHOUT TIME ZONE" ∨ t = "BIGINT" ∨
        t = "NUMERIC" ∨ t = "TEXT") ∧
      (∀ u, inferSqlType c = .ok u → u = t) ∧
      (c.dtype = .datetime64 → t = "TIMESTAMP WITHOUT TIME ZONE") ∧
      (c.dtype = .integer ∨ c.dtype = .bool_ → t = "BIGINT") ∧
      (c.dtype = .floating → t = "NUMERIC") ∧
      (c.dtype = .object_ → ∀ v, c.values.head? = some v →
        ((∃ r, v = .pyDatetime r) → t = "TIMESTAMP WITHOUT TIME ZONE") ∧
        ((∃ r, v = .pyDate r) → t = "DATE") ∧
        ((∀ r, v ≠ .pyDatetime r ∧ v ≠ .pyDate r) → t = "TEXT")) := by
  obtain ⟨nm, dt, vals⟩ := c
  cases vals with
  | nil => simp at h
  | cons v vs =>
    cases dt with
    | datetime64 =>
      exact ⟨"TIMESTAMP WITHOUT TIME ZONE", inferSqlType_datetime64_eq nm _,
        by simp [inferSqlType_datetime64_eq]⟩
    | integer =>
      exact ⟨"BIGINT", inferSqlType_integer_eq nm _, by simp [inferSqlType_integer_eq]⟩
    | bool_ =>
      exact ⟨"BIGINT", inferSqlType_bool_eq nm _, by simp [inferSqlType_bool_eq]⟩
    | floating =>
      exact ⟨"NUMERIC", inferSqlType_floating_eq nm _, by simp [inferSqlType_floating_eq]⟩
    | object_ =>
      cases v with
      | pyDatetime r =>
        exact ⟨"TIMESTAMP WITHOUT TIME ZONE", inferSqlType_object_datetime_eq nm r vs,
          by simp [inferSqlType_object_datetime_eq]⟩
      | pyDate r =>
        exact ⟨"DATE", inferSqlType_object_date_eq nm r vs,
          by simp [inferSqlType_object_date_eq]⟩
      | pyStr r =>
        exact ⟨"TEXT", inferSqlType_object_str_eq nm r vs,
          by simp [inferSqlType_object_str_eq]⟩
      | pyInt n =>
        exact ⟨"TEXT", inferSqlType_object_int_eq nm n vs,
          by simp [inferSqlType_object_int_eq]⟩

/-- C1 witness: the theorem instantiated at a one-row integer column. -/
theorem C1_integer_witness :
    ∃ t, inferSqlType ⟨"id", .integer, [.pyInt 1]⟩ = .ok t ∧
      (t = "DATE" ∨ t = "TIMESTAMP WITHOUT TIME ZONE" ∨ t = "BIGINT" ∨
        t = "NUMERIC" ∨ t = "TEXT") ∧
      (∀ u, inferSqlType ⟨"id", .integer, [.pyInt 1]⟩ = .ok u → u = t) ∧
      ((⟨"id", .integer, [.pyInt 1]⟩ : Column).dtype = .datetime64 →
        t = "TIMESTAMP WITHOUT TIME ZONE") ∧
      ((⟨"id", .integer, [.pyInt 1]⟩ : Column).dtype = .integer ∨
        (⟨"id", .integer, [.pyInt 1]⟩ : Column).dtype = .bool_ → t = "BIGINT") ∧
      ((⟨"id", .integer, [.pyInt 1]⟩ : Column).dtype = .floating → t = "NUMERIC") ∧
      ((⟨"id", .integer, [.pyInt 1]⟩ : Column).dtype = .object_ →
        ∀ v, (⟨"id", .integer, [.pyInt 1]⟩ : Column).values.head? = some v →
          ((∃ r, v = .pyDatetime r) → t = "TIMESTAMP WITHOUT TIME ZONE") ∧
          ((∃ r, v = .pyDate r) → t = "DATE") ∧
          ((∀ r, v ≠ .pyDatetime r ∧ v ≠ .pyDate r) → t = "TEXT")) :=
  C1_type_inference_precedence ⟨"id", .integer, [.pyInt 1]⟩ (by decide)

/-- C2 (amended): whenever two consecutive replace-writes of d1 then d2
both complete without raising, the destination afterwards holds exactly
the rows of d2 -- never a union of the rows of d1 and d2. -/
theorem C2_replace_leaves_second_write (tb : String) (d1 d2 : DataFrame)
    (db db1 db2 : Db)
    (_h1 : to_sql tb d1 "replace" db = (none, db1))
    (h2 : to_sql tb d2 "replace" db1 = (none, db2)) :
    dbRows db2 = tsvLines d2 ∧ db2.table.isSome = true := by
  obtain ⟨s, hs⟩ := to_sql_replace_ok tb d2 db1 db2 h2
  simp [dbRows, hs]

/-- C2 witness: two successful replace-writes at concrete frames. -/
theorem C2_replace_witness :
    dbRows dbW2 = tsvLines dfTwo ∧ dbW2.table.isSome = true :=
  C2_replace_leaves_second_write tbEx dfOne dfTwo db0 dbW1 dbW2
    (by decide) (by decide)

/-- C2 counterexample: a replace-write of a zero-row frame succeeds, but
the following replace-write of a one-row frame raises (the probe misses
the existing empty table, so CREATE TABLE hits the existing relation) and
the destination does not hold the rows of the second frame. -/
theorem C2_replace_counterexample :
    (to_sql tbEx dfEmpty "replace" db0).1 = none ∧
    (to_sql tbEx dfOne "replace" db1Ex).1 ≠ none ∧
    dbRows (to_sql tbEx dfOne "replace" db1Ex).2 ≠ tsvLines dfOne := by
  decide

/-- C3 (amended): under the fail policy, every write whose destination
table already exists raises an error and performs zero mutations (the
database state, hence the row count, is unchanged); the error is the
conflict already-exists ValueError exactly when the table holds at least
one row. -/
theorem C3_fail_preexisting (tb : String) (df : DataFrame) (db : Db) (t : TableState)
    (h : db.table = some t) :
    (to_sql tb df "fail" db).2 = db ∧
    (to_sql tb df "fail" db).1 ≠ none ∧
    (t.rows ≠ [] →
      (to_sql tb df "fail" db).1 =
        some (.valueError ("Table '" ++ tb ++ "' already exists."))) := by
  obtain ⟨table⟩ := db
  simp only at h
  subst h
  obtain ⟨s, rows⟩ := t
  cases rows with
  | nil =>
    have h1 : tableExist ⟨some ⟨s, []⟩⟩ = false := rfl
    cases hgs : getSchema tb df with
    | error e => simp [to_sql, h1, hgs, createTable]
    | ok script => simp [to_sql, h1, hgs, createTable]
  | cons r rs =>
    have h1 : tableExist ⟨some ⟨s, r :: rs⟩⟩ = true := rfl
    simp [to_sql, h1]

/-- C3 witness: the theorem at a pre-existing one-row table. -/
theorem C3_fail_witness :
    (to_sql tbEx dfOne "fail" dbRowEx).2 = dbRowEx ∧
    (to_sql tbEx dfOne "fail" dbRowEx).1 ≠ none ∧
    ((⟨"sch", ["r"]⟩ : TableState).rows ≠ [] →
      (to_sql tbEx dfOne "fail" dbRowEx).1 =
        some (.valueError ("Table '" ++ tbEx ++ "' already exists."))) :=
  C3_fail_preexisting tbEx dfOne dbRowEx ⟨"sch", ["r"]⟩ rfl

/-- C3 counterexample: on a pre-existing empty table the fail-policy
write raises the backend CREATE TABLE error, not the conflict ValueError
of the already-exists branch (mutations are still zero). -/
theorem C3_fail_counterexample :
    (to_sql tbEx dfOne "fail" dbEmptyEx).1 =
      some (.pgError "CREATE TABLE: relation already exists") ∧
    (to_sql tbEx dfOne "fail" dbEmptyEx).2 = dbEmptyEx := by
  decide

/-- C4: for every frame with a datetime64-typed column, the bulk-load
step raises NameError on the undefined name k instead of converting the
column: no conversion and no serialization happens. -/
theorem C4_copy_datetime_crash (df : DataFrame) (db : Db)
    (h : hasDatetime64Col df = true) :
    pgCopyFrom df db = .error (.nameError "k") := by
  simp [pgCopyFrom, h]

/-- C4 witness: the crash at a concrete one-column datetime frame. -/
theorem C4_copy_witness : pgCopyFrom dfDatetime db0 = .error (.nameError "k") :=
  C4_copy_datetime_crash dfDatetime db0 (by decide)

/-- C5: the existence check reports the table as existing exactly when
the LIMIT-1 probe succeeds and returns at least one row; an IOError-level
failure of the probe reads as non-existence, and an existing-but-empty
table is reported as non-existent. -/
theorem C5_table_exist_probe (db : Db) :
    (tableExist db = true ↔
      ∃ r, readSqlQueryLimit1 db = .ok r ∧ r.length > 0) ∧
    (∀ e, readSqlQueryLimit1 db = .error e → isIOError e = true →
      tableExist db = false) ∧
    (∀ s, db.table = some { schema := s, rows := [] } → tableExist db = false) := by
  obtain ⟨table⟩ := db
  cases table with
  | none => simp [tableExist, tableExistE, readSqlQueryLimit1, isIOError]
  | some t =>
    obtain ⟨s, rows⟩ := t
    cases rows with
    | nil => simp [tableExist, tableExistE, readSqlQueryLimit1]
    | cons r rs => simp [tableExist, tableExistE, readSqlQueryLimit1]

/-- C5 witness: the existing-but-empty table is reported non-existent. -/
theorem C5_probe_witness : tableExist dbEmptyEx = false :=
  (C5_table_exist_probe dbEmptyEx).2.2 "sch" rfl

/-- C6: the parameter check of sql2df raises ValueError for every
combination of query and table arguments -- also when exactly one of the
two is supplied, where the claim expects the query to be executed. -/
theorem C6_read_validation_always_raises (q s t : Option String)
    (exec : String → Except PyErr QueryResult) :
    ∃ m, sql2df q s t exec = .error (.valueError m) := by
  cases q with
  | none =>
    exact ⟨"You must give the values of 'query', or 'schema' and 'table'.",
      by simp [sql2df]⟩
  | some q0 =>
    cases t with
    | none =>
      exact ⟨"You must give the values of 'query', or 'schema' and 'table'.",
        by simp [sql2df]⟩
    | some t0 =>
      exact ⟨"You must choose one way to query PostgreSQL, SQL script or table name.",
        by simp [sql2df]⟩

/-- C7: when the backend raises a psycopg2 error for the chosen query,
read_sql catches and logs it and then fails with UnboundLocalError from
the return statement -- the backend error itself never propagates. -/
theorem C7_read_error_swallowed (tbName : String) (q : Option String)
    (exec : String → Except PyErr QueryResult) (sql : String) (e : PyErr)
    (hsql : readSqlChoice tbName q = .ok sql)
    (hexec : exec sql = .error e) (hpg : isPgError e = true) :
    read_sql tbName q exec = .error (.unboundLocalError "rows") ∧
    read_sql tbName q exec ≠ .error e := by
  have hr : read_sql tbName q exec = .error (.unboundLocalError "rows") := by
    simp [read_sql, hsql, hexec, hpg]
  refine ⟨hr, ?_⟩
  rw [hr]
  cases e <;> simp_all [isPgError]

/-- C7 witness: a backend that always fails with a psycopg2 error. -/
theorem C7_read_error_witness :
    read_sql tbEx none execFailEx = .error (.unboundLocalError "rows") ∧
    read_sql tbEx none execFailEx ≠ .error (.pgError "relation does not exist") :=
  C7_read_error_swallowed tbEx none execFailEx (selectAllSql tbEx)
    (.pgError "relation does not exist") (by decide) rfl rfl

/-- C8: with schema, table and connection all supplied and the data a
well-formed DataFrame, the validation of df2sql does not pass: evaluating
the truth of data == None raises the ambiguous-truth-value ValueError, so
the write pipeline is never entered (with data missing or of a wrong
type, the intended checks do raise their ValueErrors first). -/
theorem C8_write_validation_ambiguous (df : DataFrame) (s t ife : String) (db : Db) :
    df2sql (.dataFrame df) (some s) (some t) true ife db =
      (some (.valueError "The truth value of a DataFrame is ambiguous. Use a.empty, a.bool(), a.item(), a.any() or a.all()."), db) ∧
    df2sql .noneVal (some s) (some t) true ife db =
      (some (.valueError "There is no data to insert into the table in PostgreSQL."), db) ∧
    df2sql (.dataFrame df) none none true ife db =
      (some (.valueError "There are no values in 'schema' and 'table'."), db) := by
  refine ⟨?_, ?_, ?_⟩ <;> simp [df2sql, dataEqNoneTruth]

/-- C9: on a zero-row frame with at least one object-typed column, type
inference fails with the out-of-bounds sampling error (KeyError from
df[col][0]) instead of defaulting the column to a type. -/
theorem C9_empty_table_sampling_fails (tb : String) (df : DataFrame)
    (hwf : df.wf) (h0 : df.nrows = 0)
    (hobj : ∃ c ∈ df.cols, c.dtype = .object_) :
    getSchema tb df = .error .keyError := by
  have hemp : ∀ c ∈ df.cols, c.values = [] := by
    intro c hc
    have hl := hwf c hc
    rw [h0] at hl
    exact List.length_eq_zero.mp hl
  rw [getSchema, columnTypes_keyError df.cols hemp hobj]

/-- C9 witness: a concrete empty frame with one object column. -/
theorem C9_sampling_witness : getSchema tbEx dfObjEmpty = .error .keyError :=
  C9_empty_table_sampling_fails tbEx dfObjEmpty
    (by unfold DataFrame.wf; decide) (by decide) (by decide)

/-- C10 (amended): for every instance whose interpolated qualified name
differs from the literal interpolation of two Nones, read_sql ignores its
query argument entirely and executes the interpolated SELECT; the query
argument is consulted exactly when the interpolated name equals that
literal. -/
theorem C10_read_ignores_query (s t : String) (q : Option String)
    (h : mkTbName (some s) (some t) ≠ "None.\"None\"") :
    readSqlChoice (mkTbName (some s) (some t)) q =
      .ok (selectAllSql (mkTbName (some s) (some t))) ∧
    (∀ q2 : String, readSqlChoice "None.\"None\"" (some q2) = .ok q2) := by
  constructor
  · simp only [readSqlChoice]
    rw [if_pos h]
  · intro q2
    simp [readSqlChoice]

/-- C10 witness: an ordinary schema and table pair. -/
theorem C10_read_witness :
    readSqlChoice (mkTbName (some "dad") (some "test")) (some "SELECT 1") =
      .ok (selectAllSql (mkTbName (some "dad") (some "test"))) ∧
    (∀ q2 : String, readSqlChoice "None.\"None\"" (some q2) = .ok q2) :=
  C10_read_ignores_query "dad" "test" (some "SELECT 1") (by decide)

/-- C10 counterexample: an instance constructed with the non-None strings
None and None interpolates to the literal, and read_sql then consults the
supplied query instead of ignoring it. -/
theorem C10_read_counterexample :
    mkTbName (some "None") (some "None") = "None.\"None\"" ∧
    readSqlChoice (mkTbName (some "None") (some "None")) (some "SELECT 1") =
      .ok "SELECT 1" ∧
    readSqlChoice (mkTbName (some "None") (some "None")) (some "SELECT 1") ≠
      .ok (selectAllSql (mkTbName (some "None") (some "None"))) := by
  decide

end DBI
